import Mathlib

/-!
Verification of the Quantegrity voting protocol sources against their
natural-language specification.

The Python sources are shallowly embedded:
* binary bit-strings (Python `str` over the characters '0'/'1') become
  `List Bool`;
* general Python strings become Lean `String`, and where the code works
  with character ordinals (`ord`/`chr`) we work with `List Nat` of code
  points;
* Python dictionaries become association lists (`List (key × value)`),
  preserving insertion order and unique keys;
* external effectful collaborators (the quantum RNG `qrng`, the SEDJO
  key-exchange oracle `sedjo`, wall-clock timestamps) are passed in as
  explicit parameters: an operation that draws from the random source
  takes the drawn value as an argument;
* Python exceptions become `Except String` results; the error string is
  the exception message from the source.
-/

namespace QuantumCore

/-- Python `str.zfill n` on a binary string: left-pad with `'0'` (here
`false`) up to length `n`. -/
def zfill (n : Nat) (l : List Bool) : List Bool :=
  List.replicate (n - l.length) false ++ l

/-- `binary_xor` from `src/quantum_core.py`: both operands are
left-zero-padded to the longer length, then XOR-ed elementwise. -/
def binary_xor (a b : List Bool) : List Bool :=
  let maxLen := max a.length b.length
  List.zipWith Bool.xor (zfill maxLen a) (zfill maxLen b)

/-- `xor_encrypt` from `src/quantum_core.py`. The source first validates
that both arguments consist only of the characters '0'/'1'; in the
`List Bool` embedding that validation always succeeds, after which the
function is exactly `binary_xor`. -/
def xor_encrypt (data key : List Bool) : List Bool :=
  binary_xor data key

/-- `xor_decrypt` from `src/quantum_core.py`: same validation, then
`binary_xor`. -/
def xor_decrypt (encrypted_data key : List Bool) : List Bool :=
  binary_xor encrypted_data key

/-- `decrypt_q_k1_with_biometric` from `src/quantum_core.py`. -/
def decrypt_q_k1_with_biometric (encrypted_q_k1 biometric : List Bool) : List Bool :=
  xor_decrypt encrypted_q_k1 biometric

/-- `perform_authentication_crypto` from `src/quantum_core.py`.  The
call `sedjo(decrypted_q_k1, decrypted_q_k1)` is an external quantum
primitive; its output pair is passed in as `sedjoOut`.  The source then
checks the two shares and, on mismatch, overwrites the second share
with the first ("Force them to match for demonstration purposes"). -/
def perform_authentication_crypto (encrypted_q_k1 biometric : List Bool)
    (sedjoOut : List Bool × List Bool) : List Bool × List Bool × List Bool :=
  let decrypted_q_k1 := decrypt_q_k1_with_biometric encrypted_q_k1 biometric
  let alice_aq_k1 := sedjoOut.1
  let bob_aq_k1 := if sedjoOut.1 ≠ sedjoOut.2 then sedjoOut.1 else sedjoOut.2
  (decrypted_q_k1, alice_aq_k1, bob_aq_k1)

/-- `perform_voting_crypto` from `src/quantum_core.py`.  The call
`sedjo(aq_k1, aq_k1)` is external; its output pair is `sedjoOut`.  On a
share mismatch the second share is overwritten with the first. -/
def perform_voting_crypto (aq_k1 : List Bool)
    (sedjoOut : List Bool × List Bool) : List Bool × List Bool :=
  let alice_vq_k1 := sedjoOut.1
  let bob_vq_k1 := if sedjoOut.1 ≠ sedjoOut.2 then sedjoOut.1 else sedjoOut.2
  (alice_vq_k1, bob_vq_k1)

end QuantumCore

namespace Assoc

/-- Python dictionary lookup `d[k]` (as `Option`): first pair with the
given key.  Python dictionaries keep keys unique, which the operations
below preserve. -/
def get? {α : Type} (m : List (String × α)) (k : String) : Option α :=
  (m.find? (fun p => p.1 == k)).map (·.2)

/-- Python dictionary assignment `d[k] = v`: replace the value at an
existing key in place, otherwise append the new pair. -/
def set {α : Type} : List (String × α) → String → α → List (String × α)
  | [], k, v => [(k, v)]
  | p :: rest, k, v =>
    if p.1 == k then (k, v) :: rest else p :: set rest k v

/-- Python in-place update `f(d[k])` of the value stored at `k`.  A
missing key raises `KeyError` in Python; in the embedding the update is
a no-op then (the callers only use keys they constructed the dictionary
with). -/
def modify {α : Type} (m : List (String × α)) (k : String) (f : α → α) :
    List (String × α) :=
  m.map (fun p => if p.1 == k then (p.1, f p.2) else p)

end Assoc

namespace ScantegritySimplified

/-- `Ballot` from `src/Scantegrity_simplified.py`.  `codes` maps each
question to its option → confirmation-code dictionary (the codes are
drawn at construction time from the external random source). -/
structure SBallot where
  ballot_id : String
  codes : List (String × List (String × String))
  marked_options : List (String × String)
  status : String
deriving DecidableEq, Repr

/-- `Ballot.mark` from `src/Scantegrity_simplified.py`. -/
def SBallot.mark (b : SBallot) (question opt : String) : SBallot :=
  { b with marked_options := Assoc.set b.marked_options question opt }

/-- `Ballot.get_code` from `src/Scantegrity_simplified.py`: the code of
the marked option for `question`, `None` when the question is unmarked.
(Python would raise `KeyError` if a marked question were absent from
`codes`; the embedding returns `none` in that unreachable case.) -/
def SBallot.get_code (b : SBallot) (question : String) : Option String :=
  match Assoc.get? b.marked_options question with
  | some opt => (Assoc.get? b.codes question).bind (fun opts => Assoc.get? opts opt)
  | none => none

/-- A row of a table R in `src/Scantegrity_simplified.py`:
`{"flag": …, "q_pointer": (ballot_id, question, index-into-Q),
"s_pointer": (question, option)}`. -/
structure REntry where
  flag : Bool
  q_pointer : String × String × Nat
  s_pointer : String × String
deriving DecidableEq, Repr

/-- `ElectionSystem` from `src/Scantegrity_simplified.py`.  Table S
stores per (question, option) the set of cast codes (a Python `set`,
embedded as a duplicate-free list in insertion order); the codes and
the cast-vote log carry `Option String` because `Ballot.get_code` can
return `None`.  `audited_ballots` / `spoiled_ballots` store the ids of
the appended ballot objects (the objects themselves are aliased into
`ballots`, where their mutated status lives). -/
structure ElectionSystem where
  ballots : List SBallot
  table_q : List (String × List (String × List String))
  table_s : List (String × List (String × List (Option String)))
  tables_r : List (List REntry)
  cast_votes : List (String × String × Option String)
  audited_ballots : List String
  spoiled_ballots : List String
deriving DecidableEq, Repr

/-- Python `set.add`: append unless already present. -/
def setAdd (s : List (Option String)) (x : Option String) : List (Option String) :=
  if x ∈ s then s else s ++ [x]

/-- `self.table_s[question][option].add(code)`. -/
def addS (ts : List (String × List (String × List (Option String))))
    (question opt : String) (code : Option String) :
    List (String × List (String × List (Option String))) :=
  Assoc.modify ts question (fun opts => Assoc.modify opts opt (fun st => setAdd st code))

/-- The inner `for entry in table_r: if …: entry["flag"] = True; …; break`
loop of `cast_vote`: flag the first entry satisfying `cond` and report
whether one was found. -/
def flagFirst (cond : REntry → Bool) : List REntry → Bool × List REntry
  | [] => (false, [])
  | e :: rest =>
    if cond e then (true, { e with flag := true } :: rest)
    else
      let (m, rest') := flagFirst cond rest
      (m, e :: rest')

/-- The match condition of `cast_vote`'s table-R scan:
`entry["q_pointer"][0] == ballot_id and entry["q_pointer"][1] == question
and table_q[ballot_id][question][entry["q_pointer"][2]] == code`. -/
def rMatch (tq : List (String × List (String × List String)))
    (bid question : String) (code : Option String) (e : REntry) : Bool :=
  e.q_pointer.1 == bid && e.q_pointer.2.1 == question &&
    (((Assoc.get? tq bid).bind (fun qs => Assoc.get? qs question)).bind
      (fun codes => codes.get? e.q_pointer.2.2)) == code

/-- `ElectionSystem.cast_vote` from `src/Scantegrity_simplified.py`.
The ballot argument (a Python object reference) is embedded as an index
into `ballots`.  When the ballot is in state `"Not Cast"` the source
marks every choice, sets the status to `"Cast"`, then for every choice
logs the cast code and, in every table R, flags the first matching row
and adds the code to the table-S set of the chosen option; otherwise it
raises `ValueError`. -/
def cast_vote (sys : ElectionSystem) (i : Nat)
    (choices : List (String × String)) : Except String ElectionSystem :=
  match sys.ballots[i]? with
  | none => .error "no such ballot"
  | some b =>
    if b.status = "Not Cast" then
      let b1 := choices.foldl (fun acc qo => acc.mark qo.1 qo.2) b
      let b2 := { b1 with status := "Cast" }
      let step := fun (acc : List (String × String × Option String) ×
            List (List REntry) ×
            List (String × List (String × List (Option String))))
          (qo : String × String) =>
        let code := b2.get_code qo.1
        let cvs := acc.1 ++ [(b2.ballot_id, qo.1, code)]
        let (trs, ts) := acc.2.1.foldl
          (fun (tAcc : List (List REntry) ×
              List (String × List (String × List (Option String)))) t =>
            let (m, t') := flagFirst (rMatch sys.table_q b2.ballot_id qo.1 code) t
            (tAcc.1 ++ [t'], if m then addS tAcc.2 qo.1 qo.2 code else tAcc.2))
          ([], acc.2.2)
        (cvs, trs, ts)
      let (cvs', trs', ts') := choices.foldl step (sys.cast_votes, sys.tables_r, sys.table_s)
      .ok { sys with
        ballots := sys.ballots.set i b2,
        cast_votes := cvs',
        tables_r := trs',
        table_s := ts' }
    else .error "Ballot has already been cast, audited, or spoiled"

/-- `ElectionSystem.audit_ballot` from `src/Scantegrity_simplified.py`. -/
def audit_ballot (sys : ElectionSystem) (i : Nat) : Except String ElectionSystem :=
  match sys.ballots[i]? with
  | none => .error "no such ballot"
  | some b =>
    if b.status = "Not Cast" then
      .ok { sys with
        ballots := sys.ballots.set i { b with status := "Audited" },
        audited_ballots := sys.audited_ballots ++ [b.ballot_id] }
    else .error "Ballot has already been cast, audited, or spoiled"

/-- `ElectionSystem.spoil_ballot` from `src/Scantegrity_simplified.py`:
mark the ballot spoiled and set the flag of every table-R row whose
`q_pointer` names this ballot; table S is not touched. -/
def spoil_ballot (sys : ElectionSystem) (i : Nat) : Except String ElectionSystem :=
  match sys.ballots[i]? with
  | none => .error "no such ballot"
  | some b =>
    if b.status = "Not Cast" then
      .ok { sys with
        ballots := sys.ballots.set i { b with status := "Spoiled" },
        spoiled_ballots := sys.spoiled_ballots ++ [b.ballot_id],
        tables_r := sys.tables_r.map (fun t => t.map (fun e =>
          if e.q_pointer.1 == b.ballot_id then { e with flag := true } else e)) }
    else .error "Ballot has already been cast, audited, or spoiled"

/-- `ElectionSystem.get_tally` from `src/Scantegrity_simplified.py`:
per question and option, the size of the table-S code set. -/
def get_tally (sys : ElectionSystem) : List (String × List (String × Nat)) :=
  sys.table_s.map (fun p => (p.1, p.2.map (fun q => (q.1, q.2.length))))

/-- The three terminal ballot operations of the election system. -/
inductive TerminalOp where
  | castOp (choices : List (String × String))
  | auditOp
  | spoilOp
deriving DecidableEq, Repr

/-- Dispatch a terminal operation. -/
def applyOp (sys : ElectionSystem) (i : Nat) : TerminalOp → Except String ElectionSystem
  | .castOp cs => cast_vote sys i cs
  | .auditOp => audit_ballot sys i
  | .spoilOp => spoil_ballot sys i

/-- The status a terminal operation moves a `"Not Cast"` ballot to. -/
def terminalStatus : TerminalOp → String
  | .castOp _ => "Cast"
  | .auditOp => "Audited"
  | .spoilOp => "Spoiled"

end ScantegritySimplified

namespace QuantegrityApp

/-- The character ordinals of a Python string (`ord` of each character). -/
def strOrds (s : String) : List Nat :=
  s.toList.map Char.toNat

/-- `xor_encrypt` from `src/quantegrity_app.py`, on character ordinals:
a key shorter than the data is extended by repetition, a longer key is
truncated, then data and key are XOR-ed characterwise.  (Python divides
by `len(key)`, so an empty key with nonempty data raises
`ZeroDivisionError`; the embedding returns `[]` in that unused case.) -/
def xor_encrypt (data key : List Nat) : List Nat :=
  let key' :=
    if key.length < data.length then
      (List.flatten (List.replicate (data.length / key.length + 1) key)).take data.length
    else if key.length > data.length then key.take data.length
    else key
  List.zipWith (fun x y => x ^^^ y) data key'

/-- One uppercase hexadecimal digit. -/
def hexChar (n : Nat) : Char :=
  if n < 10 then Char.ofNat (48 + n) else Char.ofNat (55 + n)

/-- Fuel-driven digit extraction (structural recursion so that concrete
signatures evaluate by reduction; `fuel = n` always suffices because
`n / 16 < n` for positive `n`). -/
def hexDigitsAux : Nat → Nat → List Char
  | 0, _ => []
  | fuel + 1, n => if n = 0 then [] else hexDigitsAux fuel (n / 16) ++ [hexChar (n % 16)]

/-- The uppercase hexadecimal digits of `n` (empty for `0`). -/
def hexDigits (n : Nat) : List Char :=
  hexDigitsAux n n

/-- Python `f"{n:02X}"`: uppercase hex, zero-padded to at least two
digits. -/
def pad2hex (n : Nat) : List Char :=
  let d := hexDigits n
  List.replicate (2 - d.length) '0' ++ d

/-- `generate_signature` from `src/quantegrity_app.py`.  The 32-character
signature key is drawn from the external random source
(`generate_qrng_string(32)`) and passed in as `sig_key` (as ordinals).
The data is truncated/right-padded with `'0'` to 32 characters,
XOR-encrypted with the key, and hex-encoded (`f"{ord(c):02X}"` per
character). -/
def generate_signature (data : String) (sig_key : List Nat) : String :=
  let d := (strOrds data).take 32
  let data_32 := d ++ List.replicate (32 - d.length) 48
  let signature := xor_encrypt data_32 sig_key
  String.mk (List.flatten (signature.map pad2hex))

/-- `BallotStatus` from `src/quantegrity_app.py`. -/
inductive BallotStatus where
  | blank
  | cast
  | spoiled
  | audited
deriving DecidableEq, Repr

/-- `BallotChoice` from `src/quantegrity_app.py`. -/
structure BallotChoice where
  candidate_name : String
  candidate_id : String
  confirmation_code : String
  position : Nat
deriving DecidableEq, Repr

/-- `ScantegrityBallot` from `src/quantegrity_app.py` (the
`voter_receipt` / `timestamp` / `quantum_signature` fields, which only
record the external wall clock and receipts for display, are not
modelled). -/
structure ScantegrityBallot where
  ballot_id : String
  contest_name : String
  choices : List BallotChoice
  status : BallotStatus
deriving DecidableEq, Repr

/-- `ScantegrityBallot.mark_choice` from `src/quantegrity_app.py`:
scan the choices for the candidate and, on the first hit, set the
status to `CAST` and return the confirmation code; no check of the
current status is performed. -/
def mark_choice (b : ScantegrityBallot) (candidate_id : String) :
    Except String (String × ScantegrityBallot) :=
  match b.choices.find? (fun c => c.candidate_id == candidate_id) with
  | some choice => .ok (choice.confirmation_code, { b with status := .cast })
  | none => .error ("Candidate " ++ candidate_id ++ " not found on ballot")

/-- `ScantegrityBallot.spoil_ballot` from `src/quantegrity_app.py`:
unconditionally set the status to `SPOILED` and return all codes. -/
def spoil_ballot (b : ScantegrityBallot) : List String × ScantegrityBallot :=
  (b.choices.map (·.confirmation_code), { b with status := .spoiled })

/-- `ScantegrityBallot.audit_ballot` from `src/quantegrity_app.py`:
unconditionally set the status to `AUDITED` and return the
candidate → code map. -/
def audit_ballot (b : ScantegrityBallot) : List (String × String) × ScantegrityBallot :=
  (b.choices.map (fun c => (c.candidate_id, c.confirmation_code)), { b with status := .audited })

/-- A row of table R from `src/quantegrity_app.py` (`MixnetGenerator`). -/
structure MixREntry where
  code : String
  ballot_id : String
  candidate : String
  q_pointer : String × Nat
  s_pointer : String × Nat
  flag : Bool
deriving DecidableEq, Repr

/-- `MixnetTables` from `src/quantegrity_app.py`. -/
structure MixnetTables where
  table_p : List (String × List (String × String))
  table_q : List (String × List String)
  table_r : List MixREntry
  table_s : List (String × List Bool)
deriving DecidableEq, Repr

/-- The `for entry in self.tables.table_r: if entry["code"] == …` loop
of `MixnetGenerator.flag_vote`: flag the first row carrying the code
and return its candidate and S-position. -/
def flagR : List MixREntry → String → Option (String × Nat × List MixREntry)
  | [], _ => none
  | e :: rest, code =>
    if e.code == code then some (e.candidate, e.s_pointer.2, { e with flag := true } :: rest)
    else
      match flagR rest code with
      | none => none
      | some (cand, pos, rest') => some (cand, pos, e :: rest')

/-- `MixnetGenerator.flag_vote` from `src/quantegrity_app.py`, acting on
the table set: set the flag of the first table-R row whose code matches,
assign `True` to the pointed-to table-S slot, and report whether a row
was found.  (Python would raise on a dangling candidate key or S index;
those are in range by construction of the tables, and the embedding
leaves the table unchanged there.) -/
def flag_vote (t : MixnetTables) (confirmation_code : String) : Bool × MixnetTables :=
  match flagR t.table_r confirmation_code with
  | none => (false, t)
  | some (cand, pos, r') =>
    (true, { t with
      table_r := r',
      table_s := Assoc.modify t.table_s cand (fun flags => flags.set pos true) })

/-- `MixnetGenerator.get_tally` from `src/quantegrity_app.py`:
per candidate, `sum(flags)` over the table-S column. -/
def get_tally (t : MixnetTables) : List (String × Nat) :=
  t.table_s.map (fun p => (p.1, p.2.count true))

/-- The tally of a single candidate: the number of `True` slots in that
candidate's table-S column (`0` for a candidate without a column). -/
def tallyOf (t : MixnetTables) (cand : String) : Nat :=
  ((Assoc.get? t.table_s cand).getD []).count true

/-- `BulletinBoardEntry` from `src/quantegrity_app.py` (the wall-clock
timestamp is passed in by the caller in this embedding). -/
structure BulletinBoardEntry where
  entry_id : String
  ballot_id : String
  confirmation_codes : List String
  timestamp : Nat
  digital_signature : String
  entry_type : String
  quantum_proof : Option String
deriving DecidableEq, Repr

/-- `BulletinBoard` from `src/quantegrity_app.py`. -/
structure BulletinBoard where
  entries : List BulletinBoardEntry
  published_ballots : List (String × String)
  commitments : List (String × String)
  is_sealed : Bool
deriving DecidableEq, Repr

/-- `BulletinBoard.__init__`. -/
def BulletinBoard.init : BulletinBoard :=
  { entries := [], published_ballots := [], commitments := [], is_sealed := false }

/-- `BulletinBoard._generate_signature`:
`generate_signature(f"{ballot_id}:{':'.join(codes)}")` with the random
signature key passed in. -/
def bbSignature (ballot_id : String) (codes : List String) (sig_key : List Nat) : String :=
  generate_signature (ballot_id ++ ":" ++ String.intercalate ":" codes) sig_key

/-- `BulletinBoard.post_vote` from `src/quantegrity_app.py`.  The random
entry id (`generate_qrng_string(16)`), the random signature key and the
timestamp are external inputs. -/
def post_vote (bb : BulletinBoard) (ballot_id : String)
    (confirmation_codes : List String) (quantum_proof : Option String)
    (entry_id : String) (sig_key : List Nat) (timestamp : Nat) :
    Except String (String × BulletinBoard) :=
  if bb.is_sealed then .error "Bulletin board is sealed"
  else if (Assoc.get? bb.published_ballots ballot_id).isSome then
    .error ("Ballot " ++ ballot_id ++ " already published")
  else
    let signature := bbSignature ballot_id confirmation_codes sig_key
    let entry : BulletinBoardEntry :=
      { entry_id := entry_id, ballot_id := ballot_id,
        confirmation_codes := confirmation_codes, timestamp := timestamp,
        digital_signature := signature, entry_type := "vote",
        quantum_proof := quantum_proof }
    .ok (entry_id, { bb with
      entries := bb.entries ++ [entry],
      published_ballots := Assoc.set bb.published_ballots ballot_id "vote" })

/-- `BulletinBoard.post_audit` from `src/quantegrity_app.py`.  Note that
the source checks only for a previous publication of the ballot — it
does not check `is_sealed`. -/
def post_audit (bb : BulletinBoard) (ballot_id : String)
    (all_codes : List (String × String)) (entry_id : String)
    (sig_key : List Nat) (timestamp : Nat) :
    Except String (String × BulletinBoard) :=
  if (Assoc.get? bb.published_ballots ballot_id).isSome then
    .error ("Ballot " ++ ballot_id ++ " already published")
  else
    let codes_list := all_codes.map (·.2)
    let signature := bbSignature ballot_id codes_list sig_key
    let entry : BulletinBoardEntry :=
      { entry_id := entry_id, ballot_id := ballot_id,
        confirmation_codes := codes_list, timestamp := timestamp,
        digital_signature := signature, entry_type := "audit",
        quantum_proof := none }
    .ok (entry_id, { bb with
      entries := bb.entries ++ [entry],
      published_ballots := Assoc.set bb.published_ballots ballot_id "audit" })

/-- `BulletinBoard.get_entry` from `src/quantegrity_app.py`. -/
def get_entry (bb : BulletinBoard) (entry_id : String) : Option BulletinBoardEntry :=
  bb.entries.find? (fun e => e.entry_id == entry_id)

/-- `BulletinBoard.verify_entry` from `src/quantegrity_app.py`:
recompute the signature over the stored fields — with a fresh draw of
the random signature key, passed in as `fresh_sig_key` — and compare
with the stored signature. -/
def verify_entry (bb : BulletinBoard) (entry_id : String) (fresh_sig_key : List Nat) : Bool :=
  match get_entry bb entry_id with
  | none => false
  | some e => e.digital_signature == bbSignature e.ballot_id e.confirmation_codes fresh_sig_key

/-- `BulletinBoard.seal_board` from `src/quantegrity_app.py`. -/
def seal_board (bb : BulletinBoard) : BulletinBoard :=
  { bb with is_sealed := true }

/-- A request to one of the two posting operations, with all external
inputs (random entry id, random signature key, timestamp) recorded. -/
inductive PostReq where
  | vote (ballot_id : String) (codes : List String) (quantum_proof : Option String)
      (entry_id : String) (sig_key : List Nat) (timestamp : Nat)
  | audit (ballot_id : String) (all_codes : List (String × String))
      (entry_id : String) (sig_key : List Nat) (timestamp : Nat)

/-- Execute one post request; a raised exception leaves the board
unchanged (both operations check before mutating). -/
def postStep (bb : BulletinBoard) : PostReq → BulletinBoard
  | .vote bid codes qproof eid k ts =>
    match post_vote bb bid codes qproof eid k ts with
    | .ok (_, bb') => bb'
    | .error _ => bb
  | .audit bid acodes eid k ts =>
    match post_audit bb bid acodes eid k ts with
    | .ok (_, bb') => bb'
    | .error _ => bb

/-- Run a sequence of post requests against a fresh board. -/
def runPosts (ops : List PostReq) : BulletinBoard :=
  ops.foldl postStep BulletinBoard.init

/-- The linking invariant of a board reachable by posting alone: every
entry's ballot is recorded in `published_ballots`, no two entries share
a ballot id, and the board is unsealed. -/
def BoardInv (bb : BulletinBoard) : Prop :=
  (∀ e ∈ bb.entries, (Assoc.get? bb.published_ballots e.ballot_id).isSome = true) ∧
  bb.entries.Pairwise (fun e1 e2 => e1.ballot_id ≠ e2.ballot_id) ∧
  bb.is_sealed = false

end QuantegrityApp

namespace SharedState

/-- `BulletinEntry` from `src/shared_state.py`. -/
structure SSBulletinEntry where
  entry_id : String
  ballot_id : String
  confirmation_codes : List String
  entry_type : String
  timestamp : String
  signature : String
  quantum_proof : String
deriving DecidableEq, Repr

/-- `SharedState.add_bulletin_entry` from `src/shared_state.py`:
`self.data["bulletin_board"][entry.entry_id] = asdict(entry)` — the
entry is stored under its entry id, with no check of any kind. -/
def add_bulletin_entry (board : List (String × SSBulletinEntry))
    (entry : SSBulletinEntry) : List (String × SSBulletinEntry) :=
  Assoc.set board entry.entry_id entry

/-- `Ballot` from `src/shared_state.py` (timestamp fields, which record
the external wall clock, are not modelled). -/
structure PoolBallot where
  ballot_id : String
  voter_id : String
  election_id : String
  confirmation_codes : List (String × String)
  is_cast : Bool
  is_spoiled : Bool
  is_allocated : Bool
  selected_candidate : String
  encrypted_vote : String
deriving DecidableEq, Repr

/-- The inner `for candidate in candidates` loop of
`_create_ballot_pool`: one `generate_confirmation_code()` draw per
candidate, taken from the draw stream starting at position `k`. -/
def makeCodes (candidates : List String) (draws : Nat → String) (k : Nat) :
    List (String × String) :=
  match candidates with
  | [] => []
  | c :: rest => (c, draws k) :: makeCodes rest draws (k + 1)

/-- `SharedState._create_ballot_pool` from `src/shared_state.py`.  The
external random source is modelled by `draws`, the sequence of values
returned by the successive `generate_ballot_id()` /
`generate_confirmation_code()` calls (ballot `i` consumes draws
`i*(|candidates|+1)` through `(i+1)*(|candidates|+1) - 1`).  Each code
is stored exactly as drawn: there is no collision check or retry. -/
def create_ballot_pool (election_id : String) (candidates : List String)
    (pool_size : Nat) (draws : Nat → String) : List PoolBallot :=
  (List.range pool_size).map (fun i =>
    let base := i * (candidates.length + 1)
    { ballot_id := draws base, voter_id := "", election_id := election_id,
      confirmation_codes := makeCodes candidates draws (base + 1),
      is_cast := false, is_spoiled := false, is_allocated := false,
      selected_candidate := "", encrypted_vote := "" })

end SharedState

namespace ScantegritySimplified

/-- A concrete fresh ballot of the simplified election system. -/
def sampleBallot0 : SBallot :=
  { ballot_id := "0001",
    codes := [("Mayor", [("Alice", "AAA"), ("Bob", "BBB")])],
    marked_options := [],
    status := "Not Cast" }

/-- A concrete one-ballot election system (one question, two options,
one table R) in its initial state. -/
def sampleSystem : ElectionSystem :=
  { ballots := [sampleBallot0],
    table_q := [("0001", [("Mayor", ["BBB", "AAA"])])],
    table_s := [("Mayor", [("Alice", []), ("Bob", [])])],
    tables_r := [[
      { flag := false, q_pointer := ("0001", "Mayor", 1), s_pointer := ("Mayor", "Alice") },
      { flag := false, q_pointer := ("0001", "Mayor", 0), s_pointer := ("Mayor", "Bob") }]],
    cast_votes := [],
    audited_ballots := [],
    spoiled_ballots := [] }

end ScantegritySimplified

namespace QuantegrityApp

/-- A concrete one-choice ballot in the initial `BLANK` state. -/
def cexBallot : ScantegrityBallot :=
  { ballot_id := "ballot_000000", contest_name := "Main Election",
    choices := [{ candidate_name := "Alice", candidate_id := "Alice",
                  confirmation_code := "7F3A", position := 0 }],
    status := .blank }

/-- `cexBallot` after a successful `mark_choice "Alice"`. -/
def cexBallotCast : ScantegrityBallot :=
  { cexBallot with status := .cast }

/-- A concrete 32-character signature key (ordinals of 32 `'A'`s),
standing for one draw of `generate_qrng_string(32)`. -/
def sigKeyA : List Nat := List.replicate 32 65

/-- A different concrete 32-character signature key (32 `'B'`s),
standing for another, independent draw of `generate_qrng_string(32)`. -/
def sigKeyB : List Nat := List.replicate 32 66

/-- A board holding one vote entry, posted with signature key
`sigKeyA` and never modified afterwards. -/
def c7Board : BulletinBoard :=
  postStep BulletinBoard.init (.vote "ballot_000001" ["7F3A"] none "ENTRY0001" sigKeyA 0)

/-- A concrete sequence of post requests: a vote, a conflicting audit
for the same ballot, and an audit for a second ballot. -/
def samplePosts : List PostReq :=
  [.vote "ballot_000001" ["7F3A"] none "E1" sigKeyA 0,
   .audit "ballot_000001" [("Alice", "7F3A"), ("Bob", "12C4")] "E2" sigKeyA 1,
   .audit "ballot_000002" [("Alice", "9D0B"), ("Bob", "44E7")] "E3" sigKeyA 2]

/-- The entry the first request of `samplePosts` creates. -/
def sampleEntryE1 : BulletinBoardEntry :=
  { entry_id := "E1", ballot_id := "ballot_000001",
    confirmation_codes := ["7F3A"], timestamp := 0,
    digital_signature := bbSignature "ballot_000001" ["7F3A"] sigKeyA,
    entry_type := "vote", quantum_proof := none }

/-- A concrete freshly generated mixnet table set: one ballot, two
candidates, no flags set. -/
def sampleMixnet : MixnetTables :=
  { table_p := [("ballot_000000", [("Alice", "7F3A"), ("Bob", "12C4")])],
    table_q := [("ballot_000000", ["12C4", "7F3A"])],
    table_r := [
      { code := "7F3A", ballot_id := "ballot_000000", candidate := "Alice",
        q_pointer := ("ballot_000000", 1), s_pointer := ("Alice", 0), flag := false },
      { code := "12C4", ballot_id := "ballot_000000", candidate := "Bob",
        q_pointer := ("ballot_000000", 0), s_pointer := ("Bob", 0), flag := false }],
    table_s := [("Alice", [false]), ("Bob", [false])] }

/-- A freshly created board that was sealed before any entry was
posted. -/
def sealedInit : BulletinBoard := seal_board BulletinBoard.init

end QuantegrityApp

namespace SharedState

/-- A concrete bulletin entry for ballot `ballot_000007`. -/
def ssEntry1 : SSBulletinEntry :=
  { entry_id := "aaaa1111", ballot_id := "ballot_000007",
    confirmation_codes := ["7F3A"], entry_type := "vote",
    timestamp := "t1", signature := "quantum_sig_aaaa1111",
    quantum_proof := "SEDJO_proof_aaaa1111" }

/-- A second bulletin entry for the same ballot `ballot_000007` under a
different entry id. -/
def ssEntry2 : SSBulletinEntry :=
  { entry_id := "bbbb2222", ballot_id := "ballot_000007",
    confirmation_codes := ["7F3A", "12C4"], entry_type := "spoiled",
    timestamp := "t2", signature := "spoiled_sig_bbbb2222",
    quantum_proof := "SPOIL_proof_bbbb2222" }

end SharedState

namespace QuantumCore

theorem zfill_length (n : Nat) (l : List Bool) :
    (zfill n l).length = max n l.length := by
  simp [zfill]
  omega

theorem zfill_of_le {n : Nat} {l : List Bool} (h : n ≤ l.length) :
    zfill n l = l := by
  simp [zfill, Nat.sub_eq_zero_of_le h]

theorem binary_xor_of_eq_length {a b : List Bool} (h : a.length = b.length) :
    binary_xor a b = List.zipWith Bool.xor a b := by
  simp only [binary_xor, h, max_self]
  rw [zfill_of_le (Nat.le_of_eq h.symm), zfill_of_le (Nat.le_of_eq rfl)]

theorem zipWith_xor_cancel :
    ∀ (x k : List Bool), x.length = k.length →
      List.zipWith Bool.xor (List.zipWith Bool.xor x k) k = x := by
  intro x
  induction x with
  | nil => intro k _; simp
  | cons a xs ih =>
    intro k hk
    cases k with
    | nil => simp at hk
    | cons b ks =>
      simp only [List.zipWith_cons_cons, List.cons.injEq]
      refine ⟨by cases a <;> cases b <;> rfl, ih ks (by simpa using hk)⟩

end QuantumCore

namespace ScantegritySimplified

theorem lt_length_of_getElem?_eq_some {α : Type} {l : List α} {i : Nat} {a : α}
    (h : l[i]? = some a) : i < l.length := by
  induction l generalizing i with
  | nil => simp at h
  | cons x xs ih =>
    cases i with
    | zero => simp
    | succ n =>
      simp only [List.getElem?_cons_succ] at h
      exact Nat.succ_lt_succ (ih h)

theorem getElem?_set_self {α : Type} (l : List α) (i : Nat) (a : α)
    (h : i < l.length) : (l.set i a)[i]? = some a := by
  induction l generalizing i with
  | nil => simp at h
  | cons x xs ih =>
    cases i with
    | zero => simp [List.set]
    | succ n =>
      simp only [List.set, List.getElem?_cons_succ]
      exact ih n (by simpa using h)

theorem applyOp_error_of_finalized (sys : ElectionSystem) (i : Nat) (b : SBallot)
    (hb : sys.ballots[i]? = some b) (hs : ¬ b.status = "Not Cast") (op : TerminalOp) :
    applyOp sys i op = .error "Ballot has already been cast, audited, or spoiled" := by
  cases op with
  | castOp cs => simp [applyOp, cast_vote, hb, hs]
  | auditOp => simp [applyOp, audit_ballot, hb, hs]
  | spoilOp => simp [applyOp, spoil_ballot, hb, hs]

end ScantegritySimplified

namespace ScantegritySimplified

/-- C1 (amended, `ElectionSystem` part): a terminal operation applied to
a ballot in the initial `"Not Cast"` state succeeds and moves the ballot
to the corresponding terminal state, and afterwards every terminal
operation on that ballot fails with the state error. -/
theorem ballot_terminal_ops_once (sys : ElectionSystem) (i : Nat) (b : SBallot)
    (op1 : TerminalOp) (hb : sys.ballots[i]? = some b) (hs : b.status = "Not Cast") :
    ∃ sys', applyOp sys i op1 = .ok sys' ∧
      (∃ b', sys'.ballots[i]? = some b' ∧ b'.status = terminalStatus op1) ∧
      ∀ op2, applyOp sys' i op2 =
        .error "Ballot has already been cast, audited, or spoiled" := by
  have hlen : i < sys.ballots.length := lt_length_of_getElem?_eq_some hb
  cases op1 with
  | castOp cs =>
    simp only [applyOp, cast_vote, hb, hs, if_pos, terminalStatus]
    exact ⟨_, rfl, ⟨_, getElem?_set_self _ _ _ hlen, rfl⟩,
      fun op2 => applyOp_error_of_finalized _ i _ (getElem?_set_self _ _ _ hlen) (by simp) op2⟩
  | auditOp =>
    simp only [applyOp, audit_ballot, hb, hs, if_pos, terminalStatus]
    exact ⟨_, rfl, ⟨_, getElem?_set_self _ _ _ hlen, rfl⟩,
      fun op2 => applyOp_error_of_finalized _ i _ (getElem?_set_self _ _ _ hlen) (by simp) op2⟩
  | spoilOp =>
    simp only [applyOp, spoil_ballot, hb, hs, if_pos, terminalStatus]
    exact ⟨_, rfl, ⟨_, getElem?_set_self _ _ _ hlen, rfl⟩,
      fun op2 => applyOp_error_of_finalized _ i _ (getElem?_set_self _ _ _ hlen) (by simp) op2⟩

end ScantegritySimplified

namespace QuantumCore

/-- C10: XOR encryption round-trips — for equal-length binary strings
`x` and `k`, `xor_decrypt (xor_encrypt x k) k = x`; encryption and
decryption are the same involution. -/
theorem xor_encrypt_roundtrip (x k : List Bool) (h : x.length = k.length) :
    xor_decrypt (xor_encrypt x k) k = x := by
  unfold xor_encrypt xor_decrypt
  rw [binary_xor_of_eq_length h,
    binary_xor_of_eq_length (by simp [List.length_zipWith, h])]
  exact zipWith_xor_cancel x k h

/-- Witness for C10 at a concrete pair of 3-bit strings. -/
theorem xor_encrypt_roundtrip_witness :
    ([true, false, true] : List Bool).length = [false, true, true].length ∧
    xor_decrypt (xor_encrypt [true, false, true] [false, true, true])
      [false, true, true] = [true, false, true] :=
  ⟨rfl, xor_encrypt_roundtrip [true, false, true] [false, true, true] rfl⟩

/-- C9 (counterexample): `binary_xor` applied to binary strings of
different lengths returns a padded XOR result instead of failing — the
shorter operand is silently left-zero-padded. -/
theorem binary_xor_mismatch_returns_cex :
    ([true] : List Bool).length ≠ [true, false].length ∧
    binary_xor [true] [true, false] = [true, true] := by
  decide

theorem length_flatten_replicate (n : Nat) (l : List Nat) :
    ((List.replicate n l).flatten).length = n * l.length := by
  induction n with
  | zero => simp
  | succ m ih =>
    simp only [List.replicate_succ, List.flatten_cons, List.length_append, ih]
    ring

/-- C9 (amended): mismatched lengths are not rejected —
`quantum_core.binary_xor` left-zero-pads the shorter operand to the
longer length and returns the elementwise XOR, and
`quantegrity_app.xor_encrypt` repeats or truncates the key to the data
length and returns a result of the data's length. -/
theorem binary_xor_pads_mismatched :
    (∀ a b : List Bool, a.length ≠ b.length →
      (binary_xor a b).length = max a.length b.length ∧
      binary_xor a b =
        List.zipWith Bool.xor (zfill (max a.length b.length) a)
          (zfill (max a.length b.length) b)) ∧
    (∀ data key : List Nat, key ≠ [] →
      (QuantegrityApp.xor_encrypt data key).length = data.length) := by
  constructor
  · intro a b _
    refine ⟨?_, rfl⟩
    simp only [binary_xor, List.length_zipWith, zfill_length]
    omega
  · intro data key hk
    have hkpos : 0 < key.length := List.length_pos.2 hk
    unfold QuantegrityApp.xor_encrypt
    by_cases h1 : key.length < data.length
    · have hge : data.length ≤ (data.length / key.length + 1) * key.length := by
        have := Nat.div_add_mod data.length key.length
        have hmod := Nat.mod_lt data.length hkpos
        nlinarith [Nat.div_add_mod data.length key.length]
      simp only [h1, if_pos, List.length_zipWith, List.length_take,
        length_flatten_replicate]
      omega
    · rw [if_neg h1]
      by_cases h2 : key.length > data.length
      · rw [if_pos h2]
        simp only [List.length_zipWith, List.length_take]
        omega
      · rw [if_neg h2]
        simp only [List.length_zipWith]
        omega

/-- Witness for C9's amended statement at concrete mismatched-length
operands. -/
theorem binary_xor_pads_mismatched_witness :
    (([true] : List Bool).length ≠ [true, false].length ∧
      ((binary_xor [true] [true, false]).length =
          max [true].length [true, false].length ∧
        binary_xor [true] [true, false] =
          List.zipWith Bool.xor (zfill (max [true].length [true, false].length) [true])
            (zfill (max [true].length [true, false].length) [true, false]))) ∧
    (([65] : List Nat) ≠ [] ∧
      (QuantegrityApp.xor_encrypt [66, 67] [65]).length = [66, 67].length) :=
  ⟨⟨by decide, binary_xor_pads_mismatched.1 [true] [true, false] (by decide)⟩,
   ⟨by decide, binary_xor_pads_mismatched.2 [66, 67] [65] (by decide)⟩⟩

/-- C8 (counterexample): when the two SEDJO shares differ, the core
does not abort — `perform_voting_crypto` returns normally, silently
replacing the mismatched second share with the first one. -/
theorem sedjo_mismatch_returns_cex :
    ([false] : List Bool) ≠ [true] ∧
    perform_voting_crypto [true] ([false], [true]) = ([false], [false]) := by
  decide

/-- C8 (amended): on a share mismatch both `perform_authentication_crypto`
and `perform_voting_crypto` silently overwrite the second share with
the first and return successfully; no protocol violation is raised. -/
theorem sedjo_mismatch_silently_repaired (encrypted_q_k1 biometric aq_k1 a b : List Bool)
    (h : a ≠ b) :
    perform_authentication_crypto encrypted_q_k1 biometric (a, b) =
      (decrypt_q_k1_with_biometric encrypted_q_k1 biometric, a, a) ∧
    perform_voting_crypto aq_k1 (a, b) = (a, a) := by
  simp [perform_authentication_crypto, perform_voting_crypto, h]

/-- Witness for C8's amended statement at a concrete mismatched share
pair. -/
theorem sedjo_mismatch_silently_repaired_witness :
    ([false] : List Bool) ≠ [true] ∧
    (perform_authentication_crypto [true] [true] ([false], [true]) =
        (decrypt_q_k1_with_biometric [true] [true], [false], [false]) ∧
      perform_voting_crypto [true] ([false], [true]) = ([false], [false])) :=
  ⟨by decide, sedjo_mismatch_silently_repaired [true] [true] [true] [false] [true] (by decide)⟩

end QuantumCore

namespace ScantegritySimplified

/-- Witness for C1's amended statement: casting the sample ballot of
the concrete sample system. -/
theorem ballot_terminal_ops_once_witness :
    (sampleSystem.ballots[0]? = some sampleBallot0 ∧
      sampleBallot0.status = "Not Cast") ∧
    (∃ sys', applyOp sampleSystem 0 (TerminalOp.castOp [("Mayor", "Alice")]) = .ok sys' ∧
      (∃ b', sys'.ballots[0]? = some b' ∧
        b'.status = terminalStatus (TerminalOp.castOp [("Mayor", "Alice")])) ∧
      ∀ op2, applyOp sys' 0 op2 =
        .error "Ballot has already been cast, audited, or spoiled") :=
  ⟨⟨rfl, rfl⟩,
    ballot_terminal_ops_once sampleSystem 0 sampleBallot0
      (TerminalOp.castOp [("Mayor", "Alice")]) rfl rfl⟩

/-- C6: spoiling an allocated-but-uncast ballot succeeds, sets the
table-R flags of that ballot, leaves table S unchanged, and therefore
leaves the tally unchanged. -/
theorem spoil_preserves_tally (sys : ElectionSystem) (i : Nat) (b : SBallot)
    (hb : sys.ballots[i]? = some b) (hs : b.status = "Not Cast") :
    ∃ sys', spoil_ballot sys i = .ok sys' ∧
      sys'.table_s = sys.table_s ∧
      get_tally sys' = get_tally sys ∧
      ∀ t ∈ sys'.tables_r, ∀ e ∈ t, e.q_pointer.1 = b.ballot_id → e.flag = true := by
  simp only [spoil_ballot, hb, hs, if_pos]
  refine ⟨_, rfl, rfl, rfl, ?_⟩
  intro t ht e he hq
  obtain ⟨t0, _, rfl⟩ := List.mem_map.1 ht
  obtain ⟨e0, _, rfl⟩ := List.mem_map.1 he
  by_cases hc : e0.q_pointer.1 = b.ballot_id
  · simp [hc]
  · have hfalse : (e0.q_pointer.1 == b.ballot_id) = false := beq_eq_false_iff_ne.2 hc
    simp only [hfalse] at hq ⊢
    simp only [Bool.false_eq_true, if_neg] at hq
    exact absurd hq hc

/-- Witness for C6 at the concrete sample system. -/
theorem spoil_preserves_tally_witness :
    (sampleSystem.ballots[0]? = some sampleBallot0 ∧
      sampleBallot0.status = "Not Cast") ∧
    (∃ sys', spoil_ballot sampleSystem 0 = .ok sys' ∧
      sys'.table_s = sampleSystem.table_s ∧
      get_tally sys' = get_tally sampleSystem ∧
      ∀ t ∈ sys'.tables_r, ∀ e ∈ t,
        e.q_pointer.1 = sampleBallot0.ballot_id → e.flag = true) :=
  ⟨⟨rfl, rfl⟩, spoil_preserves_tally sampleSystem 0 sampleBallot0 rfl rfl⟩

end ScantegritySimplified

namespace QuantegrityApp

/-- C1 (counterexample): `ScantegrityBallot`'s terminal operations
perform no state check — `spoil_ballot` applied to an already-cast
ballot succeeds and overwrites the status instead of failing with a
state error. -/
theorem ballot_no_state_check_cex :
    mark_choice cexBallot "Alice" = .ok ("7F3A", cexBallotCast) ∧
    (spoil_ballot cexBallotCast).2.status = BallotStatus.spoiled ∧
    BallotStatus.spoiled ≠ BallotStatus.cast :=
  ⟨rfl, rfl, by decide⟩

end QuantegrityApp

namespace QuantegrityApp

theorem flagR_idem :
    ∀ (l : List MixREntry) (c cd : String) (p : Nat) (l' : List MixREntry),
      flagR l c = some (cd, p, l') → flagR l' c = some (cd, p, l') := by
  intro l
  induction l with
  | nil => intro c cd p l' h; simp [flagR] at h
  | cons e rest ih =>
    intro c cd p l' h
    by_cases hc : (e.code == c) = true
    · rw [flagR, if_pos hc] at h
      obtain ⟨rfl, rfl, rfl⟩ :
          e.candidate = cd ∧ e.s_pointer.2 = p ∧
            ({ e with flag := true } :: rest : List MixREntry) = l' := by
        simpa [Prod.ext_iff] using h
      rw [flagR, if_pos hc]
    · rw [flagR, if_neg hc] at h
      cases hr : flagR rest c with
      | none => rw [hr] at h; exact absurd h (by simp)
      | some v =>
        obtain ⟨cd0, p0, rest0⟩ := v
        rw [hr] at h
        obtain ⟨rfl, rfl, rfl⟩ :
            cd0 = cd ∧ p0 = p ∧ (e :: rest0 : List MixREntry) = l' := by
          simpa [Prod.ext_iff] using h
        rw [flagR, if_neg hc, ih c cd0 p0 rest0 hr]

theorem modify_set_idem (s : List (String × List Bool)) (cand : String) (pos : Nat) :
    Assoc.modify (Assoc.modify s cand (fun fl => fl.set pos true)) cand
        (fun fl => fl.set pos true) =
      Assoc.modify s cand (fun fl => fl.set pos true) := by
  unfold Assoc.modify
  rw [List.map_map]
  apply List.map_congr_left
  intro p _
  by_cases hc : (p.1 == cand) = true
  · simp [Function.comp, hc, List.set_set]
  · simp [Function.comp, hc]

theorem get?_cons {α : Type} (q : String × α) (t : List (String × α)) (k : String) :
    Assoc.get? (q :: t) k = if q.1 == k then some q.2 else Assoc.get? t k := by
  by_cases h : (q.1 == k) = true
  · simp [Assoc.get?, List.find?_cons_of_pos _ h, h]
  · simp [Assoc.get?, List.find?_cons_of_neg _ h, h]

theorem get?_modify {α : Type} (s : List (String × α)) (k k' : String) (f : α → α) :
    Assoc.get? (Assoc.modify s k f) k' =
      (Assoc.get? s k').map (fun v => if k' == k then f v else v) := by
  induction s with
  | nil => rfl
  | cons p rest ih =>
    obtain ⟨a, v⟩ := p
    by_cases hk : a = k <;> by_cases hp : a = k'
    · subst hk
      subst hp
      simp [Assoc.modify, get?_cons]
    · subst hk
      simpa [Assoc.modify, get?_cons, hp] using ih
    · subst hp
      simp [Assoc.modify, get?_cons, hk, Ne.symm hk]
    · simpa [Assoc.modify, get?_cons, hk, hp] using ih

theorem count_true_set_le (l : List Bool) (pos : Nat) :
    (l.set pos true).count true ≤ l.count true + 1 := by
  induction l generalizing pos with
  | nil => simp
  | cons a rest ih =>
    cases pos with
    | zero =>
      simp only [List.set, List.count_cons]
      cases a <;> simp <;> omega
    | succ n =>
      simp only [List.set, List.count_cons]
      have := ih n
      omega

theorem tallyOf_flag_vote_le (t : MixnetTables) (code cand : String) :
    tallyOf (flag_vote t code).2 cand ≤ tallyOf t cand + 1 := by
  unfold flag_vote
  cases h : flagR t.table_r code with
  | none => simp
  | some v =>
    obtain ⟨cd, p, r'⟩ := v
    simp only [tallyOf]
    rw [get?_modify]
    cases hg : Assoc.get? t.table_s cand with
    | none => simp
    | some fl =>
      by_cases hc : (cand == cd) = true
      · simpa [hc] using count_true_set_le fl p
      · simp [hc]

/-- C3: flagging a confirmation code present in table R is idempotent —
a second `flag_vote` with the same code returns the same result and the
same tables, and the per-candidate tally after the two calls exceeds
the original tally by at most 1, never 2, because the S slot is
assigned `True`, not incremented. -/
theorem flag_vote_idempotent (t : MixnetTables) (code : String)
    (hmem : code ∈ t.table_r.map (fun e => e.code)) :
    flag_vote (flag_vote t code).2 code = flag_vote t code ∧
    ∀ cand, tallyOf (flag_vote (flag_vote t code).2 code).2 cand ≤ tallyOf t cand + 1 := by
  have hidem : flag_vote (flag_vote t code).2 code = flag_vote t code := by
    cases h : flagR t.table_r code with
    | none =>
      have h1 : flag_vote t code = (false, t) := by simp [flag_vote, h]
      rw [h1]
      exact h1
    | some v =>
      obtain ⟨cd, p, r'⟩ := v
      have h1 : flag_vote t code = (true, { t with
          table_r := r',
          table_s := Assoc.modify t.table_s cd (fun fl => fl.set p true) }) := by
        simp [flag_vote, h]
      rw [h1]
      have h2 := flagR_idem t.table_r code cd p r' h
      simp only [flag_vote, h2]
      rw [modify_set_idem]
  refine ⟨hidem, fun cand => ?_⟩
  calc tallyOf (flag_vote (flag_vote t code).2 code).2 cand
      = tallyOf (flag_vote t code).2 cand := by rw [hidem]
    _ ≤ tallyOf t cand + 1 := tallyOf_flag_vote_le t code cand

/-- Witness for C3 at the concrete sample table set and the code
`"7F3A"` (Alice's code on the sample ballot). -/
theorem flag_vote_idempotent_witness :
    ("7F3A" ∈ sampleMixnet.table_r.map (fun e => e.code)) ∧
    (flag_vote (flag_vote sampleMixnet "7F3A").2 "7F3A" = flag_vote sampleMixnet "7F3A" ∧
      ∀ cand, tallyOf (flag_vote (flag_vote sampleMixnet "7F3A").2 "7F3A").2 cand ≤
        tallyOf sampleMixnet cand + 1) :=
  ⟨by decide, flag_vote_idempotent sampleMixnet "7F3A" (by decide)⟩

end QuantegrityApp

namespace QuantegrityApp

theorem get?_set {α : Type} (m : List (String × α)) (k k' : String) (v : α) :
    Assoc.get? (Assoc.set m k v) k' = if k' == k then some v else Assoc.get? m k' := by
  induction m with
  | nil =>
    simp only [Assoc.set]
    rw [get?_cons]
    by_cases h : k' = k
    · subst h; simp
    · simp [Assoc.get?, h, Ne.symm h]
  | cons p rest ih =>
    obtain ⟨a, w⟩ := p
    simp only [Assoc.set]
    by_cases hk : (a == k) = true
    · rw [if_pos hk, get?_cons, get?_cons]
      have ha : a = k := by simpa using hk
      by_cases h : k' = k
      · subst h; simp [ha]
      · simp [ha, h, Ne.symm h]
    · rw [if_neg hk, get?_cons, get?_cons, ih]
      by_cases hp : (a == k') = true
      · have ha : a = k' := by simpa using hp
        have hne : ¬ k' = k := fun hkk => hk (by simp [ha, hkk])
        simp [hp, ha, hne]
      · simp [hp]

theorem boardInv_init : BoardInv BulletinBoard.init := by
  refine ⟨?_, ?_, rfl⟩ <;> simp [BulletinBoard.init]

theorem boardInv_postStep (bb : BulletinBoard) (req : PostReq) (h : BoardInv bb) :
    BoardInv (postStep bb req) := by
  obtain ⟨hpub, hnodup, hseal⟩ := h
  have key : ∀ (bid : String) (newEntry : BulletinBoardEntry) (tag : String),
      newEntry.ballot_id = bid →
      (Assoc.get? bb.published_ballots bid).isSome = false →
      BoardInv { bb with
          entries := bb.entries ++ [newEntry],
          published_ballots := Assoc.set bb.published_ballots bid tag } := by
    intro bid newEntry tag hbid hdup
    refine ⟨?_, ?_, hseal⟩
    · intro e he
      rcases List.mem_append.1 he with he | he
      · rw [get?_set]
        by_cases hb : (e.ballot_id == bid) = true
        · simp [hb]
        · simp only [hb, Bool.false_eq_true, if_neg, if_false]
          exact hpub e he
      · simp only [List.mem_singleton] at he
        subst he
        rw [get?_set, hbid]
        simp
    · rw [List.pairwise_append]
      refine ⟨hnodup, List.pairwise_singleton _ _, ?_⟩
      intro e he e' he'
      simp only [List.mem_singleton] at he'
      subst he'
      rw [hbid]
      intro hcontra
      exact absurd (hcontra ▸ hpub e he) (by simp [hdup])
  cases req with
  | vote bid codes qproof eid k ts =>
    by_cases hdup : (Assoc.get? bb.published_ballots bid).isSome = true
    · have : postStep bb (.vote bid codes qproof eid k ts) = bb := by
        simp [postStep, post_vote, hseal, hdup]
      rw [this]
      exact ⟨hpub, hnodup, hseal⟩
    · have hdup' : (Assoc.get? bb.published_ballots bid).isSome = false := by
        simpa using hdup
      have : postStep bb (.vote bid codes qproof eid k ts) =
          { bb with
            entries := bb.entries ++
              [⟨eid, bid, codes, ts, bbSignature bid codes k, "vote", qproof⟩],
            published_ballots := Assoc.set bb.published_ballots bid "vote" } := by
        simp [postStep, post_vote, hseal, hdup]
      rw [this]
      exact key bid _ "vote" rfl hdup'
  | audit bid acodes eid k ts =>
    by_cases hdup : (Assoc.get? bb.published_ballots bid).isSome = true
    · have : postStep bb (.audit bid acodes eid k ts) = bb := by
        simp [postStep, post_audit, hdup]
      rw [this]
      exact ⟨hpub, hnodup, hseal⟩
    · have hdup' : (Assoc.get? bb.published_ballots bid).isSome = false := by
        simpa using hdup
      have : postStep bb (.audit bid acodes eid k ts) =
          { bb with
            entries := bb.entries ++
              [⟨eid, bid, acodes.map (·.2), ts, bbSignature bid (acodes.map (·.2)) k,
                "audit", none⟩],
            published_ballots := Assoc.set bb.published_ballots bid "audit" } := by
        simp [postStep, post_audit, hdup]
      rw [this]
      exact key bid _ "audit" rfl hdup'

theorem boardInv_runPosts (ops : List PostReq) : BoardInv (runPosts ops) := by
  unfold runPosts
  have gen : ∀ (l : List PostReq) (bb : BulletinBoard),
      BoardInv bb → BoardInv (l.foldl postStep bb) := by
    intro l
    induction l with
    | nil => intro bb h; exact h
    | cons r rest ih => intro bb h; exact ih _ (boardInv_postStep bb r h)
  exact gen ops _ boardInv_init

theorem post_dup_error (bb : BulletinBoard) (h : BoardInv bb) (e : BulletinBoardEntry)
    (he : e ∈ bb.entries) :
    (∀ (codes : List String) (qproof : Option String) (eid : String)
        (k : List Nat) (ts : Nat),
      post_vote bb e.ballot_id codes qproof eid k ts =
        .error ("Ballot " ++ e.ballot_id ++ " already published")) ∧
    (∀ (acodes : List (String × String)) (eid : String) (k : List Nat) (ts : Nat),
      post_audit bb e.ballot_id acodes eid k ts =
        .error ("Ballot " ++ e.ballot_id ++ " already published")) := by
  obtain ⟨hpub, _, hseal⟩ := h
  have hd := hpub e he
  constructor
  · intro codes qproof eid k ts
    simp [post_vote, hseal, hd]
  · intro acodes eid k ts
    simp [post_audit, hd]

/-- C2 (amended, `BulletinBoard` part): after any sequence of post
operations on a fresh board, no two entries share a ballot id, and for
every published ballot both `post_vote` and `post_audit` fail with the
duplicate-publication error. -/
theorem bulletin_unique_ballot_entries (ops : List PostReq) :
    (runPosts ops).entries.Pairwise (fun e1 e2 => e1.ballot_id ≠ e2.ballot_id) ∧
    ∀ e ∈ (runPosts ops).entries,
      (∀ (codes : List String) (qproof : Option String) (eid : String)
          (k : List Nat) (ts : Nat),
        post_vote (runPosts ops) e.ballot_id codes qproof eid k ts =
          .error ("Ballot " ++ e.ballot_id ++ " already published")) ∧
      (∀ (acodes : List (String × String)) (eid : String) (k : List Nat) (ts : Nat),
        post_audit (runPosts ops) e.ballot_id acodes eid k ts =
          .error ("Ballot " ++ e.ballot_id ++ " already published")) := by
  have h := boardInv_runPosts ops
  exact ⟨h.2.1, fun e he => post_dup_error _ h e he⟩

/-- Witness for C2's amended statement: on the concrete request
sequence `samplePosts` no two entries share a ballot id, and a later
audit post for the already-published ballot of entry `E1` fails with
the duplicate error. -/
theorem bulletin_unique_ballot_entries_witness :
    (runPosts samplePosts).entries.Pairwise (fun e1 e2 => e1.ballot_id ≠ e2.ballot_id) ∧
    (sampleEntryE1 ∈ (runPosts samplePosts).entries ∧
      post_audit (runPosts samplePosts) sampleEntryE1.ballot_id
          [("Alice", "0000")] "EX" sigKeyB 9 =
        .error ("Ballot " ++ sampleEntryE1.ballot_id ++ " already published")) :=
  ⟨(bulletin_unique_ballot_entries samplePosts).1,
   ⟨by decide,
    ((bulletin_unique_ballot_entries samplePosts).2 sampleEntryE1 (by decide)).2
      [("Alice", "0000")] "EX" sigKeyB 9⟩⟩

end QuantegrityApp

namespace QuantegrityApp

/-- C5 (counterexample): `post_audit` does not check the seal — posting
an audit for a never-published ballot on a sealed board succeeds and
adds an entry. -/
theorem sealed_post_audit_succeeds_cex :
    sealedInit.is_sealed = true ∧
    post_audit sealedInit "ballot_000009" [("Alice", "7F3A")] "E9" sigKeyA 0 =
      .ok ("E9", postStep sealedInit (.audit "ballot_000009" [("Alice", "7F3A")] "E9" sigKeyA 0)) ∧
    (postStep sealedInit (.audit "ballot_000009" [("Alice", "7F3A")] "E9" sigKeyA 0)).entries.length = 1 :=
  ⟨rfl, rfl, by decide⟩

/-- C5 (amended): sealing is one-way and excludes later `post_vote`
publication — after `seal_board` every `post_vote` fails with the
board-sealed error and the stored entries are unchanged — but
`post_audit` lacks the seal check, so an audit post for a
never-published ballot still succeeds on a sealed board and appends an
entry. -/
theorem sealed_board_posting (bb : BulletinBoard) (h : bb.is_sealed = true) :
    (∀ (bid : String) (codes : List String) (qproof : Option String)
        (eid : String) (k : List Nat) (ts : Nat),
      post_vote bb bid codes qproof eid k ts = .error "Bulletin board is sealed") ∧
    (seal_board bb).entries = bb.entries ∧
    (seal_board bb).is_sealed = true ∧
    (∀ (bid : String) (acodes : List (String × String)) (eid : String)
        (k : List Nat) (ts : Nat),
      Assoc.get? bb.published_ballots bid = none →
      post_audit bb bid acodes eid k ts =
        .ok (eid, { bb with
          entries := bb.entries ++
            [⟨eid, bid, acodes.map (·.2), ts, bbSignature bid (acodes.map (·.2)) k,
              "audit", none⟩],
          published_ballots := Assoc.set bb.published_ballots bid "audit" })) := by
  refine ⟨?_, rfl, rfl, ?_⟩
  · intro bid codes qproof eid k ts
    simp [post_vote, h]
  · intro bid acodes eid k ts hbid
    simp [post_audit, hbid]

/-- Witness for C5's amended statement at the concrete sealed fresh
board. -/
theorem sealed_board_posting_witness :
    sealedInit.is_sealed = true ∧
    ((∀ (bid : String) (codes : List String) (qproof : Option String)
        (eid : String) (k : List Nat) (ts : Nat),
      post_vote sealedInit bid codes qproof eid k ts = .error "Bulletin board is sealed") ∧
    (seal_board sealedInit).entries = sealedInit.entries ∧
    (seal_board sealedInit).is_sealed = true ∧
    (∀ (bid : String) (acodes : List (String × String)) (eid : String)
        (k : List Nat) (ts : Nat),
      Assoc.get? sealedInit.published_ballots bid = none →
      post_audit sealedInit bid acodes eid k ts =
        .ok (eid, { sealedInit with
          entries := sealedInit.entries ++
            [⟨eid, bid, acodes.map (·.2), ts, bbSignature bid (acodes.map (·.2)) k,
              "audit", none⟩],
          published_ballots := Assoc.set sealedInit.published_ballots bid "audit" }))) :=
  ⟨rfl, sealed_board_posting sealedInit rfl⟩

/-- C7 (code bug): the signature of a bulletin entry is computed with a
fresh random key on every call, so `verify_entry` — which recomputes
the signature with a new draw of the key — returns `false` on an
untampered entry whenever the fresh draw differs from the one used at
posting time. -/
theorem verify_entry_fails_untampered :
    post_vote BulletinBoard.init "ballot_000001" ["7F3A"] none "ENTRY0001" sigKeyA 0 =
      .ok ("ENTRY0001", c7Board) ∧
    sigKeyA ≠ sigKeyB ∧
    verify_entry c7Board "ENTRY0001" sigKeyB = false :=
  ⟨rfl, by decide, by decide⟩

end QuantegrityApp

namespace SharedState

/-- C2 (counterexample): `SharedState.add_bulletin_entry` performs no
duplicate check — two entries with the same ballot id but different
entry ids are both stored, so the shared-state bulletin board ends up
with two entries for one ballot. -/
theorem shared_board_duplicate_ballot_cex :
    (add_bulletin_entry (add_bulletin_entry [] ssEntry1) ssEntry2).map
        (fun p => p.2.ballot_id) =
      ["ballot_000007", "ballot_000007"] ∧
    ssEntry1.ballot_id = ssEntry2.ballot_id ∧
    ssEntry1.entry_id ≠ ssEntry2.entry_id := by
  decide

/-- C4 (code bug): `_create_ballot_pool` performs no collision check or
retry on the drawn confirmation codes — a random source that returns
the same 16-bit string on consecutive draws (which the external
interface permits) produces a pool in which two different
(ballot, candidate) pairs carry the same confirmation code. -/
theorem ballot_pool_duplicate_codes :
    (create_ballot_pool "election_1" ["Alice"] 2 (fun _ => "0000000000000000")).map
        (fun b => b.confirmation_codes) =
      [[("Alice", "0000000000000000")], [("Alice", "0000000000000000")]] ∧
    (create_ballot_pool "election_1" ["Alice"] 2 (fun _ => "0000000000000000")).map
        (fun b => b.ballot_id) =
      ["0000000000000000", "0000000000000000"] := by
  decide

end SharedState
